import Mathlib

/-!
Shallow embedding of the `mctekk/twilio-video-chat` repository:
a Vue view (`src/views/Video.vue`) that joins a Twilio video room,
mirrors participant membership into DOM containers, and a router
(`src/router`, one of the unnamed sources) mapping two pages.

DOM state is modelled explicitly: the `#participants` element's child
containers as a list, the `.message` element's display style, and the
component's reactive data (`messageState`, `loading`).  Window/document
event-handler slots are modelled as `Option` values; `room.disconnect()`
calls are counted.  Fallible DOM operations (`querySelector` returning
`null` followed by a member access) are modelled with `Option`.
-/

namespace TwilioChat

/-- A Twilio participant as used by `Video.vue`: only `sid` and `identity`
are read (`const { identity, sid } = participant`). -/
structure Participant where
  sid : String
  identity : String
deriving DecidableEq, Repr

/-- Kind of a media track / media DOM element (`track.kind` is the tag name
used in the selector and in `document.createElement`). -/
inductive MediaKind
  | audio
  | video
deriving DecidableEq, Repr

/-- A media track.  `attach`/`detach` are DOM effects modelled elsewhere. -/
structure Track where
  kind : MediaKind
deriving DecidableEq, Repr

/-- A remote track publication: `publication.track` is `null` until the
publication is subscribed to, hence `Option`. -/
structure TrackPublication where
  track : Option Track
deriving DecidableEq, Repr

/-- A local track publication (`room.localParticipant.videoTracks` values):
for the local participant the track is always present. -/
structure LocalTrackPublication where
  track : Track
deriving DecidableEq, Repr

/-- An `<audio>` or `<video>` element created by `setupParticipantContainer`,
with the properties the code assigns. -/
structure MediaElement where
  kind : MediaKind
  autoplay : Bool
  muted : Bool
  playsinline : Bool
  opacity : String
deriving DecidableEq, Repr

/-- The per-participant `<div>` container appended to `#participants`. -/
structure Container where
  id : String
  className : String
  dataIdentity : String
  children : List MediaElement
deriving DecidableEq, Repr

/-- The component's status-message state: the keys of the `messages`
dictionary in `data()`. -/
inductive MessageState
  | waiting
  | disconnect
deriving DecidableEq, Repr

/-- The `messages` dictionary from `data()`. -/
def messages : MessageState → String
  | MessageState.waiting => "Waiting for participant..."
  | MessageState.disconnect => "Participant left the call."

/-- `messageState` is initialised to `"waiting"` in `data()`. -/
def initialMessageState : MessageState := MessageState.waiting

/-- The view-visible state the Vue methods mutate: the participant
containers inside `#participants`, the `.message` element's `display`
style, and the reactive `messageState`. -/
structure ViewState where
  containers : List Container
  messageDisplay : String
  messageState : MessageState
deriving DecidableEq, Repr

/-- The Vue computed property `message()`: `this.messages[this.messageState]`. -/
def message (v : ViewState) : String := messages v.messageState

/-- `setMessage(messageState)`: store the state and show the `.message`
element (`style.display = "flex"`). -/
def setMessage (ms : MessageState) (v : ViewState) : ViewState :=
  { v with messageState := ms, messageDisplay := "flex" }

/-- The container built inside `setupParticipantContainer`: a `<div>` with
`id = sid`, the given class name, `data-identity`, and children
`[audio, video]` with the assigned properties.  `audio.muted` is
`participant === room.localParticipant`; reference equality is modelled
as structural equality (distinct participants have distinct sids). -/
def mediaContainer (participant : Participant) (localParticipant : Participant)
    (className : String) : Container :=
  { id := participant.sid
    className := className
    dataIdentity := participant.identity
    children :=
      [ { kind := MediaKind.audio
          autoplay := true
          muted := participant == localParticipant
          playsinline := false
          opacity := "0" },
        { kind := MediaKind.video
          autoplay := true
          muted := true
          playsinline := true
          opacity := "0" } ] }

/-- `setupParticipantContainer(participant, room, className)`: build the
container, hide the waiting message when the class name is not `"local"`,
and append the container to `#participants`. -/
def setupParticipantContainer (participant : Participant) (localParticipant : Participant)
    (className : String) (v : ViewState) : ViewState :=
  let container := mediaContainer participant localParticipant className
  { v with
    containers := v.containers ++ [container]
    messageDisplay := if className != "local" then "none" else v.messageDisplay }

/-- Replace the first element satisfying the test, as `querySelector`
addresses the first match in document order. -/
def updateFirst (test : α → Bool) (f : α → α) : List α → List α
  | [] => []
  | a :: rest => if test a then f a :: rest else a :: updateFirst test f rest

/-- Set the opacity of the first child of the given kind
(`#sid > kind` selects the first matching child). -/
def setChildOpacity (kind : MediaKind) (value : String) (c : Container) : Container :=
  { c with children := updateFirst (fun m => m.kind == kind) (fun m => { m with opacity := value }) c.children }

/-- `attachTrack(track, participant)`: `media.style.opacity = ""` on the
element `#sid > kind`.  (`track.attach(media)` streams media into the
element; it has no further modelled effect.)  In every flow of the
component the selector target exists: the container was just created by
`setupParticipantContainer` with one child of each kind. -/
def attachTrack (track : Track) (participant : Participant) (v : ViewState) : ViewState :=
  { v with
    containers :=
      updateFirst (fun c => c.id == participant.sid)
        (setChildOpacity track.kind "") v.containers }

/-- `detachTrack(track, participant)`: `media.style.opacity = "0"`. -/
def detachTrack (track : Track) (participant : Participant) (v : ViewState) : ViewState :=
  { v with
    containers :=
      updateFirst (fun c => c.id == participant.sid)
        (setChildOpacity track.kind "0") v.containers }

/-- `trackPublished(publication, participant)`: if the publication is
already subscribed to (`publication.track` non-null), attach the track.
(The `"subscribed"`/`"unsubscribed"` callbacks fire later and simply call
`attachTrack`/`detachTrack`.) -/
def trackPublished (publication : TrackPublication) (participant : Participant)
    (v : ViewState) : ViewState :=
  match publication.track with
  | some t => attachTrack t participant v
  | none => v

/-- `participantConnected(participant, room, className)`: set up the
container, then handle each already-published `TrackPublication`. -/
def participantConnected (participant : Participant) (tracks : List TrackPublication)
    (localParticipant : Participant) (className : String) (v : ViewState) : ViewState :=
  let v1 := setupParticipantContainer participant localParticipant className v
  tracks.foldl (fun acc publication => trackPublished publication participant acc) v1

/-- Remove the first container with the given id, as
`removeChild(querySelector(hash sid))` removes the first match. -/
def removeFirstById (sid : String) : List Container → List Container
  | [] => []
  | c :: rest => if c.id == sid then rest else c :: removeFirstById sid rest

/-- `participantDisconnected(participant)`: look up `#sid` and remove it
from `#participants`, then `setMessage("disconnect")`.  When no container
with that id exists, `querySelector` yields `null` and `removeChild`
throws: modelled as `none`. -/
def participantDisconnected (participant : Participant) (v : ViewState) : Option ViewState :=
  if v.containers.any (fun c => c.id == participant.sid) then
    some (setMessage MessageState.disconnect
      { v with containers := removeFirstById participant.sid v.containers })
  else
    none

/-- A JavaScript value, as needed to model the truthiness tests the code
performs (`if (error)`, `if (isMobile)`). -/
inductive JsValue
  | jsFunction (name : String)
  | jsBool (b : Bool)
  | jsNull
  | jsUndefined
deriving DecidableEq, Repr

/-- JavaScript truthiness: a function object is always truthy. -/
def truthy : JsValue → Bool
  | JsValue.jsFunction _ => true
  | JsValue.jsBool b => b
  | JsValue.jsNull => false
  | JsValue.jsUndefined => false

/-- The value of the imported binding `isMobile` itself (a function
object), as tested by `if (isMobile)` in the `"disconnected"` handler.
The body of `isMobile` lives in `src/utils/helpers`, which only matters
where the code calls `isMobile()`; those call results are abstract
`Bool` parameters below. -/
def isMobileRef : JsValue := JsValue.jsFunction "isMobile"

/-- What a window/document handler installed by `createChat` does when it
fires.  `onbeforeunload` and (on mobile) `onpagehide` call
`room.disconnect()`. -/
inductive HandlerAction
  | disconnectRoom
deriving DecidableEq, Repr

/-- The `document.onvisibilitychange` handler installed on mobile: stops
and unpublishes or republishes the local video track depending on
`document.visibilityState`.  Its firing semantics is outside the claims;
only its installation and clearing are modelled. -/
inductive VisibilityAction
  | toggleLocalVideo
deriving DecidableEq, Repr

/-- The handler slots `createChat` assigns: `window.onbeforeunload`,
`window.onpagehide`, `document.onvisibilitychange` (`none` models the
browser default `null`). -/
structure WindowState where
  onbeforeunload : Option HandlerAction
  onpagehide : Option HandlerAction
  onvisibilitychange : Option VisibilityAction
deriving DecidableEq, Repr

/-- All handler slots `null`, the state before `createChat` assigns them. -/
def nullWindow : WindowState :=
  { onbeforeunload := none, onpagehide := none, onvisibilitychange := none }

/-- The handler assignments performed inside the `Promise` executor of
`createChat`: `onbeforeunload` always, `onpagehide` and
`onvisibilitychange` only when `isMobile()` returned true. -/
def promiseSetup (isMobileResult : Bool) (w : WindowState) : WindowState :=
  { onbeforeunload := some HandlerAction.disconnectRoom
    onpagehide := if isMobileResult then some HandlerAction.disconnectRoom else w.onpagehide
    onvisibilitychange :=
      if isMobileResult then some VisibilityAction.toggleLocalVideo else w.onvisibilitychange }

/-- How the promise returned to the caller settles: `resolve()` or
`reject(error)` with the TwilioError (modelled by its message). -/
inductive Settlement
  | resolved
  | rejected (error : String)
deriving DecidableEq, Repr

/-- `if (error) reject(error) else resolve()`: a TwilioError object is
always truthy, absence is `undefined`. -/
def settleOutcome : Option String → Settlement
  | some e => Settlement.rejected e
  | none => Settlement.resolved

/-- The whole session state after `createChat` has connected: the room
data the component reads (`localParticipant`, `participants`, whether the
room is still connected), the component/DOM view state, the handler
slots, whether `localVideoTrack.stop()` has been called, how many times
`room.disconnect()` has been invoked, and how the promise settled. -/
structure SessionState where
  localParticipant : Participant
  remotes : List Participant
  active : Bool
  loading : Bool
  view : ViewState
  window : WindowState
  localVideoTrackStopped : Bool
  disconnectCalls : Nat
  settled : Option Settlement
deriving DecidableEq, Repr

/-- The sids of every connected participant: the local one and the
remotes currently in `room.participants`. -/
def allSids (s : SessionState) : List String :=
  s.localParticipant.sid :: s.remotes.map (fun p => p.sid)

/-- Run a stored handler action. -/
def runHandler : HandlerAction → SessionState → SessionState
  | HandlerAction.disconnectRoom, s => { s with disconnectCalls := s.disconnectCalls + 1 }

/-- Fire the window `beforeunload` event: runs `window.onbeforeunload`
when set. -/
def fireBeforeunload (s : SessionState) : SessionState :=
  match s.window.onbeforeunload with
  | some a => runHandler a s
  | none => s

/-- Fire the window `pagehide` event: runs `window.onpagehide` when set. -/
def firePagehide (s : SessionState) : SessionState :=
  match s.window.onpagehide with
  | some a => runHandler a s
  | none => s

/-- The `disconnect()` method behind the Disconnect button:
`setMessage("disconnect")` then `room.disconnect()`. -/
def disconnect (s : SessionState) : SessionState :=
  let s1 := { s with view := setMessage MessageState.disconnect s.view }
  { s1 with disconnectCalls := s1.disconnectCalls + 1 }

/-- `toggleMute()` acts on the local audio track publications. -/
structure LocalAudioTrack where
  isEnabled : Bool
deriving DecidableEq, Repr

/-- An entry of `room.localParticipant.audioTracks`. -/
structure AudioTrackPublication where
  track : LocalAudioTrack
deriving DecidableEq, Repr

/-- `publication.isTrackEnabled` mirrors the track's enabled state. -/
def AudioTrackPublication.isTrackEnabled (p : AudioTrackPublication) : Bool :=
  p.track.isEnabled

/-- One iteration of the `forEach` in `toggleMute()`: an enabled track is
disabled (`toggleButton.innerHTML = "Unmute"`), a disabled one is enabled
(`innerHTML = "Mute"`).  The accumulator carries the button label and the
publications processed so far, in order. -/
def toggleMuteStep (acc : String × List AudioTrackPublication)
    (publication : AudioTrackPublication) : String × List AudioTrackPublication :=
  if publication.isTrackEnabled then
    ("Unmute", acc.2 ++ [{ track := { isEnabled := false } }])
  else
    ("Mute", acc.2 ++ [{ track := { isEnabled := true } }])

/-- `toggleMute()`: `forEach` over the local participant's audio track
publications, flipping each one; the result carries the final button
label and the updated publications in order. -/
def toggleMute (buttonLabel : String) (pubs : List AudioTrackPublication) :
    String × List AudioTrackPublication :=
  pubs.foldl toggleMuteStep (buttonLabel, [])

/-- Pointwise effect of `toggleMute` on one publication. -/
def toggledPublication (p : AudioTrackPublication) : AudioTrackPublication :=
  if p.isTrackEnabled then { track := { isEnabled := false } }
  else { track := { isEnabled := true } }

/-- The unguarded access
`Array.from(room.localParticipant.videoTracks.values())[0].track` in
`createChat`: indexing an empty array gives `undefined` and the `.track`
member access has no defined result, hence `Option`. -/
def firstLocalVideoTrack (videoTracks : List LocalTrackPublication) : Option Track :=
  (videoTracks.head?).map (fun publication => publication.track)

/-- The `room.once("disconnected", ...)` handler of `createChat`: clear
`window.onbeforeunload`; clear the mobile handlers under the test
`if (isMobile)` — the truthiness of the imported function object itself;
stop the local video track; remove the local participant's container
(`participantDisconnected(room.localParticipant)`); remove every
remaining remote participant's container; then reject with the error if
one was given, otherwise resolve.  The teardown is part of the same
resulting state as the settlement. -/
def roomDisconnectedHandler (error : Option String) (s : SessionState) : Option SessionState :=
  let w1 := { s.window with onbeforeunload := none }
  let w2 :=
    if truthy isMobileRef then { w1 with onpagehide := none, onvisibilitychange := none }
    else w1
  match participantDisconnected s.localParticipant s.view with
  | none => none
  | some v1 =>
    match s.remotes.foldlM (fun acc p => participantDisconnected p acc) v1 with
    | none => none
    | some v2 =>
      some { s with
        window := w2
        localVideoTrackStopped := true
        view := v2
        settled := some (settleOutcome error) }

/-- The synchronous setup `createChat` performs once `connect` has
resolved: clear `loading`, read the first local video track publication
(failing like the source when `videoTracks` is empty), render the local
participant's container, render a container for each remote already in
the room, and install the window handlers of the `Promise` executor.
Event subscriptions (`participantConnected`, `participantDisconnected`,
`disconnected`) are the transitions of `step` below. -/
def createChatSetup (localP : Participant) (localTracks : List TrackPublication)
    (localVideoTracks : List LocalTrackPublication)
    (initialRemotes : List (Participant × List TrackPublication))
    (isMobileResult : Bool) : Option SessionState :=
  match firstLocalVideoTrack localVideoTracks with
  | none => none
  | some _ =>
    let v0 : ViewState :=
      { containers := [], messageDisplay := "flex", messageState := initialMessageState }
    let v1 := participantConnected localP localTracks localP "local" v0
    let v2 := initialRemotes.foldl
      (fun acc pr => participantConnected pr.1 pr.2 localP "participant" acc) v1
    some
      { localParticipant := localP
        remotes := initialRemotes.map (fun pr => pr.1)
        active := true
        loading := false
        view := v2
        window := promiseSetup isMobileResult nullWindow
        localVideoTrackStopped := false
        disconnectCalls := 0
        settled := none }

/-- Room events delivered to the handlers `createChat` registered.  A
`remoteConnected` event carries the participant's already-published
track publications. -/
inductive SessionEvent
  | remoteConnected (p : Participant) (pubs : List TrackPublication)
  | remoteDisconnected (p : Participant)
  | roomDisconnected (error : Option String)
deriving DecidableEq, Repr

/-- Remove the first participant with the given sid (the SDK removes the
departing participant from `room.participants` before emitting the
event). -/
def removeFirstBySid (sid : String) : List Participant → List Participant
  | [] => []
  | p :: rest => if p.sid == sid then rest else p :: removeFirstBySid sid rest

/-- One event of the SDK environment delivered to the registered
handlers.  The guards state when the SDK can emit the event: a
`remoteConnected` only for a fresh participant (Twilio sids are unique),
a `remoteDisconnected` only for a current member, and any event only
while the room is connected.  `none` means the event cannot occur (or a
handler threw). -/
def step (s : SessionState) : SessionEvent → Option SessionState
  | SessionEvent.remoteConnected p pubs =>
    if s.active = true ∧ p.sid ∉ allSids s then
      some { s with
        remotes := s.remotes ++ [p]
        view := participantConnected p pubs s.localParticipant "participant" s.view }
    else none
  | SessionEvent.remoteDisconnected p =>
    if s.active = true ∧ p.sid ∈ s.remotes.map (fun q => q.sid) then
      match participantDisconnected p s.view with
      | none => none
      | some v1 =>
        some { s with remotes := removeFirstBySid p.sid s.remotes, view := v1 }
    else none
  | SessionEvent.roomDisconnected error =>
    if s.active = true then
      (roomDisconnectedHandler error s).map (fun s1 => { s1 with active := false })
    else none

/-- Run a sequence of room events from a state. -/
def runSession (s : SessionState) (events : List SessionEvent) : Option SessionState :=
  events.foldlM step s

/-- The page components the router imports (`Home` and `Video` views). -/
inductive PageComponent
  | Home
  | Video
deriving DecidableEq, Repr

/-- One entry of the `routes` array passed to `VueRouter`. -/
structure RouteRecord where
  path : String
  name : String
  component : PageComponent
deriving DecidableEq, Repr

/-- The `routes` array of the router source. -/
def routes : List RouteRecord :=
  [ { path := "/", name := "home", component := PageComponent.Home },
    { path := "/video", name := "video", component := PageComponent.Video } ]

/-!  Concrete fixtures used by witnesses. -/

/-- A participant playing the local role in witnesses. -/
def pAlice : Participant := { sid := "PA1", identity := "alice" }

/-- A participant playing the remote role in witnesses. -/
def pBob : Participant := { sid := "PB2", identity := "bob" }

/-- A concrete video track. -/
def tVideo : Track := { kind := MediaKind.video }

/-- A throwaway state used only as the default of `Option.getD` below;
the adjacent equations prove the options are in fact `some`. -/
def fallbackState : SessionState :=
  { localParticipant := pAlice
    remotes := []
    active := false
    loading := true
    view := { containers := [], messageDisplay := "flex", messageState := initialMessageState }
    window := nullWindow
    localVideoTrackStopped := false
    disconnectCalls := 0
    settled := none }

/-- The state `createChatSetup` yields for a session with local `pAlice`,
one published local video track, and `pBob` already in the room, on a
mobile platform. -/
def exampleInitState : SessionState :=
  (createChatSetup pAlice [] [{ track := tVideo }] [(pBob, [])] true).getD fallbackState

/-- A concrete event trace: `pBob` leaves, rejoins, then the room
disconnects without an error. -/
def exampleEvents : List SessionEvent :=
  [ SessionEvent.remoteDisconnected pBob,
    SessionEvent.remoteConnected pBob [],
    SessionEvent.roomDisconnected none ]

/-- The state after running `exampleEvents` from `exampleInitState`. -/
def exampleFinalState : SessionState :=
  (runSession exampleInitState exampleEvents).getD fallbackState

/-- The state after the `"disconnected"` handler fires on
`exampleInitState` with a TwilioError. -/
def exampleRejectedState : SessionState :=
  (roomDisconnectedHandler (some "SignalingConnectionError") exampleInitState).getD fallbackState

/-- The state after the `"disconnected"` handler fires on
`exampleInitState` without an error. -/
def exampleResolvedState : SessionState :=
  (roomDisconnectedHandler none exampleInitState).getD fallbackState

/-- The view after `pBob` disconnects from the example session. -/
def exampleViewAfterLeave : ViewState :=
  (participantDisconnected pBob exampleInitState.view).getD exampleInitState.view

/-- The `<audio>` element `setupParticipantContainer` builds for the
local participant, used as a concrete sample. -/
def exampleAudioElement : MediaElement :=
  { kind := MediaKind.audio
    autoplay := true
    muted := true
    playsinline := false
    opacity := "0" }

/-- The container lifecycle invariant of the session: while the room is
connected, `#participants` holds exactly one container per connected
participant (local and remote, keyed by sid, in join order) and the sids
are distinct; once the room has disconnected, no participant container
remains. -/
def SessionInv (s : SessionState) : Prop :=
  (s.active = true →
    s.view.containers.map (fun c => c.id) = allSids s ∧ (allSids s).Nodup)
  ∧ (s.active = false → s.view.containers = [])

/-!  Helper lemmas. -/

/-- `updateFirst` does not change any quantity `g` preserved by `f`. -/
theorem map_updateFirst {α β : Type} (test : α → Bool) (f : α → α) (g : α → β)
    (hf : ∀ a, g (f a) = g a) :
    ∀ l : List α, (updateFirst test f l).map g = l.map g := by
  intro l
  induction l with
  | nil => rfl
  | cons a rest ih =>
    simp only [updateFirst]
    cases test a with
    | true => simp [hf]
    | false => simp [ih]

/-- `attachTrack` changes only opacities: container ids, the message
state and the message display are untouched. -/
theorem attachTrack_preserves (t : Track) (p : Participant) (v : ViewState) :
    (attachTrack t p v).containers.map (fun c => c.id) = v.containers.map (fun c => c.id)
    ∧ (attachTrack t p v).messageState = v.messageState
    ∧ (attachTrack t p v).messageDisplay = v.messageDisplay := by
  refine ⟨?_, rfl, rfl⟩
  exact map_updateFirst (fun c => c.id == p.sid) (setChildOpacity t.kind "")
    (fun c => c.id) (fun c => rfl) v.containers

/-- `trackPublished` preserves container ids and the message fields. -/
theorem trackPublished_preserves (pub : TrackPublication) (p : Participant) (v : ViewState) :
    (trackPublished pub p v).containers.map (fun c => c.id) = v.containers.map (fun c => c.id)
    ∧ (trackPublished pub p v).messageState = v.messageState
    ∧ (trackPublished pub p v).messageDisplay = v.messageDisplay := by
  cases hpt : pub.track with
  | none => simp [trackPublished, hpt]
  | some t => simp only [trackPublished, hpt]; exact attachTrack_preserves t p v

/-- Folding `trackPublished` over a publication list preserves container
ids and the message state. -/
theorem foldl_trackPublished_preserves (p : Participant) (tracks : List TrackPublication) :
    ∀ v : ViewState,
      (tracks.foldl (fun acc publication => trackPublished publication p acc) v).containers.map
          (fun c => c.id) = v.containers.map (fun c => c.id)
      ∧ (tracks.foldl (fun acc publication => trackPublished publication p acc) v).messageState
          = v.messageState := by
  induction tracks with
  | nil => intro v; exact ⟨rfl, rfl⟩
  | cons pub rest ih =>
    intro v
    have h1 := trackPublished_preserves pub p v
    have h2 := ih (trackPublished pub p v)
    simp only [List.foldl_cons]
    exact ⟨h2.1.trans h1.1, h2.2.trans h1.2.1⟩

/-- `participantConnected` appends exactly one container, with the
participant's sid as its id, and leaves the message state alone. -/
theorem participantConnected_spec (p : Participant) (tracks : List TrackPublication)
    (lp : Participant) (cn : String) (v : ViewState) :
    (participantConnected p tracks lp cn v).containers.map (fun c => c.id)
        = v.containers.map (fun c => c.id) ++ [p.sid]
    ∧ (participantConnected p tracks lp cn v).messageState = v.messageState := by
  unfold participantConnected
  have hfold := foldl_trackPublished_preserves p tracks (setupParticipantContainer p lp cn v)
  refine ⟨hfold.1.trans ?_, hfold.2⟩
  simp [setupParticipantContainer, mediaContainer]

/-- Removing the first container with a given id corresponds to `erase`
on the id list. -/
theorem map_removeFirstById (sid : String) :
    ∀ cs : List Container,
      (removeFirstById sid cs).map (fun c => c.id) = (cs.map (fun c => c.id)).erase sid := by
  intro cs
  induction cs with
  | nil => rfl
  | cons c rest ih =>
    simp only [removeFirstById, List.map_cons, List.erase_cons]
    cases h : c.id == sid with
    | true => simp [h]
    | false => simp [h, ih]

/-- Removing the first participant with a given sid corresponds to
`erase` on the sid list. -/
theorem map_removeFirstBySid (sid : String) :
    ∀ ps : List Participant,
      (removeFirstBySid sid ps).map (fun p => p.sid) = (ps.map (fun p => p.sid)).erase sid := by
  intro ps
  induction ps with
  | nil => rfl
  | cons p rest ih =>
    simp only [removeFirstBySid, List.map_cons, List.erase_cons]
    cases h : p.sid == sid with
    | true => simp [h]
    | false => simp [h, ih]

/-- The `querySelector` existence test of `participantDisconnected`,
phrased on the id list. -/
theorem any_id_iff_mem (cs : List Container) (sid : String) :
    cs.any (fun c => c.id == sid) = true ↔ sid ∈ cs.map (fun c => c.id) := by
  induction cs with
  | nil => simp
  | cons c rest ih =>
    simp only [List.any_cons, Bool.or_eq_true, List.map_cons, List.mem_cons, beq_iff_eq, ih]
    constructor
    · rintro (h | h)
      · exact Or.inl h.symm
      · exact Or.inr h
    · rintro (h | h)
      · exact Or.inl h.symm
      · exact Or.inr h

/-- When the first container's id matches, `participantDisconnected`
removes exactly that container and sets the disconnect message. -/
theorem participantDisconnected_head (p : Participant) (v : ViewState) (c : Container)
    (cs : List Container) (hvc : v.containers = c :: cs) (hcid : c.id = p.sid) :
    participantDisconnected p v
      = some (setMessage MessageState.disconnect { v with containers := cs }) := by
  unfold participantDisconnected
  rw [hvc]
  simp [List.any_cons, hcid, removeFirstById]

/-- Removing containers for a participant list whose sids match the
container ids in order succeeds and empties `#participants`. -/
theorem foldlM_participantDisconnected (remotes : List Participant) :
    ∀ v : ViewState,
      v.containers.map (fun c => c.id) = remotes.map (fun p => p.sid) →
      ∃ v2, remotes.foldlM (fun acc p => participantDisconnected p acc) v = some v2
        ∧ v2.containers = [] := by
  induction remotes with
  | nil =>
    intro v h
    refine ⟨v, rfl, ?_⟩
    simpa using h
  | cons p ps ih =>
    intro v h
    cases hvc : v.containers with
    | nil => rw [hvc] at h; simp at h
    | cons c cs =>
      rw [hvc] at h
      simp only [List.map_cons] at h
      injection h with h1 h2
      have hstep := participantDisconnected_head p v c cs hvc h1
      have hv1 : (setMessage MessageState.disconnect { v with containers := cs }).containers.map
          (fun c => c.id) = ps.map (fun q => q.sid) := h2
      obtain ⟨v2, hfold, hemp⟩ := ih _ hv1
      refine ⟨v2, ?_, hemp⟩
      simp only [List.foldlM_cons, hstep]
      simpa using hfold

/-- The concrete value the `"disconnected"` handler produces once both
`participantDisconnected` stages succeed. -/
theorem roomDisconnectedHandler_eq (error : Option String) (s : SessionState)
    (v1 v2 : ViewState)
    (hpd : participantDisconnected s.localParticipant s.view = some v1)
    (hfold : s.remotes.foldlM (fun acc p => participantDisconnected p acc) v1 = some v2) :
    roomDisconnectedHandler error s = some { s with
      window := nullWindow
      localVideoTrackStopped := true
      view := v2
      settled := some (settleOutcome error) } := by
  simp only [roomDisconnectedHandler, hpd, hfold]
  rfl

/-- When the containers mirror the connected participants, the
`"disconnected"` handler succeeds, empties `#participants`, clears every
handler slot, stops the local video track, settles according to the
error, and touches nothing else. -/
theorem roomDisconnectedHandler_spec (error : Option String) (s : SessionState)
    (hids : s.view.containers.map (fun c => c.id) = allSids s) :
    ∃ s2, roomDisconnectedHandler error s = some s2
      ∧ s2.view.containers = []
      ∧ s2.window = nullWindow
      ∧ s2.localVideoTrackStopped = true
      ∧ s2.settled = some (settleOutcome error)
      ∧ s2.active = s.active
      ∧ s2.remotes = s.remotes
      ∧ s2.localParticipant = s.localParticipant
      ∧ s2.disconnectCalls = s.disconnectCalls := by
  have hall : allSids s = (s.localParticipant :: s.remotes).map (fun p => p.sid) := rfl
  obtain ⟨v2, hfold, hemp⟩ :=
    foldlM_participantDisconnected (s.localParticipant :: s.remotes) s.view (hids.trans hall)
  simp only [List.foldlM_cons] at hfold
  cases hpd : participantDisconnected s.localParticipant s.view with
  | none => rw [hpd] at hfold; simp at hfold
  | some v1 =>
    rw [hpd] at hfold
    have hfold2 : s.remotes.foldlM (fun acc p => participantDisconnected p acc) v1 = some v2 := by
      simpa using hfold
    exact ⟨_, roomDisconnectedHandler_eq error s v1 v2 hpd hfold2,
      hemp, rfl, rfl, rfl, rfl, rfl, rfl, rfl⟩

/-- Whenever the `"disconnected"` handler runs to completion, every
handler slot is `null` afterwards: the guard `if (isMobile)` tests the
function object, which is truthy on every platform. -/
theorem roomDisconnectedHandler_window (error : Option String) (s s2 : SessionState)
    (h : roomDisconnectedHandler error s = some s2) : s2.window = nullWindow := by
  unfold roomDisconnectedHandler at h
  cases hpd : participantDisconnected s.localParticipant s.view with
  | none => rw [hpd] at h; simp at h
  | some v1 =>
    simp only [hpd] at h
    cases hfold : s.remotes.foldlM (fun acc p => participantDisconnected p acc) v1 with
    | none => rw [hfold] at h; simp at h
    | some v2 =>
      simp only [hfold] at h
      injection h with h2
      subst h2
      rfl

/-- Rendering the containers of the remotes already in the room appends
one container per remote, in order, and keeps the message state. -/
theorem foldl_participantConnected_spec (lp : Participant)
    (irs : List (Participant × List TrackPublication)) :
    ∀ v : ViewState,
      ((irs.foldl (fun acc pr => participantConnected pr.1 pr.2 lp "participant" acc)
          v).containers.map (fun c => c.id))
        = v.containers.map (fun c => c.id) ++ irs.map (fun pr => pr.1.sid)
      ∧ (irs.foldl (fun acc pr => participantConnected pr.1 pr.2 lp "participant" acc)
          v).messageState = v.messageState := by
  induction irs with
  | nil => intro v; simp
  | cons pr rest ih =>
    intro v
    have h1 := participantConnected_spec pr.1 pr.2 lp "participant" v
    have h2 := ih (participantConnected pr.1 pr.2 lp "participant" v)
    simp only [List.foldl_cons, List.map_cons]
    constructor
    · rw [h2.1, h1.1]; simp
    · rw [h2.2, h1.2]

/-- The state `createChatSetup` produces: `#participants` holds the local
container followed by one container per initial remote, the message state
is still `waiting`, the room data and promise bookkeeping are fresh, and
the window handlers are exactly the ones the `Promise` executor set. -/
theorem createChatSetup_spec (localP : Participant) (localTracks : List TrackPublication)
    (localVideoTracks : List LocalTrackPublication)
    (initialRemotes : List (Participant × List TrackPublication)) (isMobileResult : Bool)
    (s0 : SessionState)
    (h : createChatSetup localP localTracks localVideoTracks initialRemotes isMobileResult
        = some s0) :
    s0.view.containers.map (fun c => c.id)
        = localP.sid :: initialRemotes.map (fun pr => pr.1.sid)
    ∧ s0.view.messageState = initialMessageState
    ∧ s0.remotes = initialRemotes.map (fun pr => pr.1)
    ∧ s0.active = true
    ∧ s0.localParticipant = localP
    ∧ s0.window = promiseSetup isMobileResult nullWindow
    ∧ s0.settled = none
    ∧ s0.loading = false
    ∧ s0.localVideoTrackStopped = false
    ∧ s0.disconnectCalls = 0 := by
  cases hft : firstLocalVideoTrack localVideoTracks with
  | none => rw [createChatSetup, hft] at h; simp at h
  | some t =>
    rw [createChatSetup, hft] at h
    injection h with h2
    subst h2
    refine ⟨?_, ?_, rfl, rfl, rfl, rfl, rfl, rfl, rfl, rfl⟩
    · rw [(foldl_participantConnected_spec localP initialRemotes _).1,
        (participantConnected_spec localP localTracks localP "local" _).1]
      simp
    · rw [(foldl_participantConnected_spec localP initialRemotes _).2,
        (participantConnected_spec localP localTracks localP "local" _).2]

/-- The session invariant holds right after `createChatSetup` (given the
Twilio guarantee that sids are distinct). -/
theorem createChatSetup_inv (localP : Participant) (localTracks : List TrackPublication)
    (localVideoTracks : List LocalTrackPublication)
    (initialRemotes : List (Participant × List TrackPublication)) (isMobileResult : Bool)
    (s0 : SessionState)
    (hnodup : (localP.sid :: initialRemotes.map (fun pr => pr.1.sid)).Nodup)
    (h : createChatSetup localP localTracks localVideoTracks initialRemotes isMobileResult
        = some s0) :
    SessionInv s0 := by
  obtain ⟨hids, _, hrem, hact, hlp, _⟩ :=
    createChatSetup_spec localP localTracks localVideoTracks initialRemotes isMobileResult s0 h
  have hall : allSids s0 = localP.sid :: initialRemotes.map (fun pr => pr.1.sid) := by
    simp [allSids, hlp, hrem, List.map_map, Function.comp]
  constructor
  · intro _
    exact ⟨hids.trans hall.symm, hall ▸ hnodup⟩
  · intro hf
    rw [hact] at hf
    exact Bool.noConfusion hf

/-- The step relation preserves the container lifecycle invariant. -/
theorem step_preserves_inv (s s2 : SessionState) (e : SessionEvent)
    (h : step s e = some s2) (hinv : SessionInv s) : SessionInv s2 := by
  cases e with
  | remoteConnected p pubs =>
    simp only [step] at h
    by_cases hc : s.active = true ∧ p.sid ∉ allSids s
    · rw [if_pos hc] at h
      injection h with h2
      subst h2
      obtain ⟨hids, hnd⟩ := hinv.1 hc.1
      constructor
      · intro _
        have hpc := (participantConnected_spec p pubs s.localParticipant "participant" s.view).1
        have hall : allSids { s with
            remotes := s.remotes ++ [p]
            view := participantConnected p pubs s.localParticipant "participant" s.view }
            = allSids s ++ [p.sid] := by
          simp [allSids, List.map_append]
        constructor
        · rw [hpc, hids, hall]
        · rw [hall]
          have hperm : (allSids s ++ [p.sid]).Perm (p.sid :: allSids s) :=
            List.perm_append_singleton p.sid (allSids s)
          exact hperm.nodup_iff.mpr (List.nodup_cons.mpr ⟨hc.2, hnd⟩)
      · intro hf
        have := hc.1.symm.trans hf
        exact Bool.noConfusion this
    · rw [if_neg hc] at h
      exact Option.noConfusion h
  | remoteDisconnected p =>
    simp only [step] at h
    by_cases hc : s.active = true ∧ p.sid ∈ s.remotes.map (fun q => q.sid)
    · rw [if_pos hc] at h
      obtain ⟨hids, hnd⟩ := hinv.1 hc.1
      have hmem : p.sid ∈ s.view.containers.map (fun c => c.id) := by
        rw [hids]
        exact List.mem_cons_of_mem _ hc.2
      cases hpd : participantDisconnected p s.view with
      | none => rw [hpd] at h; exact Option.noConfusion h
      | some v1 =>
        rw [hpd] at h
        injection h with h2
        subst h2
        have hv1 : v1.containers.map (fun c => c.id)
            = (s.view.containers.map (fun c => c.id)).erase p.sid := by
          unfold participantDisconnected at hpd
          rw [if_pos ((any_id_iff_mem _ _).mpr hmem)] at hpd
          injection hpd with h3
          rw [← h3]
          exact map_removeFirstById p.sid s.view.containers
        have hlocne : ¬ (s.localParticipant.sid == p.sid) = true := by
          intro hbe
          rw [beq_iff_eq] at hbe
          exact (List.nodup_cons.mp hnd).1 (hbe ▸ hc.2)
        have hall : allSids { s with remotes := removeFirstBySid p.sid s.remotes, view := v1 }
            = s.localParticipant.sid :: (s.remotes.map (fun q => q.sid)).erase p.sid := by
          simp [allSids, map_removeFirstBySid]
        constructor
        · intro _
          constructor
          · rw [hv1, hids, hall]
            show (allSids s).erase p.sid = _
            rw [show allSids s
                = s.localParticipant.sid :: s.remotes.map (fun q => q.sid) from rfl]
            rw [List.erase_cons, if_neg hlocne]
          · rw [hall]
            have hcons := List.nodup_cons.mp hnd
            refine List.nodup_cons.mpr ⟨?_, hcons.2.erase p.sid⟩
            intro hmem2
            exact hcons.1 (List.mem_of_mem_erase hmem2)
        · intro hf
          have := hc.1.symm.trans hf
          exact Bool.noConfusion this
    · rw [if_neg hc] at h
      exact Option.noConfusion h
  | roomDisconnected error =>
    simp only [step] at h
    by_cases hc : s.active = true
    · rw [if_pos hc] at h
      obtain ⟨hids, hnd⟩ := hinv.1 hc
      obtain ⟨s3, hh, hemp, _⟩ := roomDisconnectedHandler_spec error s hids
      rw [hh] at h
      simp only [Option.map_some'] at h
      injection h with h2
      subst h2
      constructor
      · intro hf
        exact Bool.noConfusion hf
      · intro _
        exact hemp
    · rw [if_neg hc] at h
      exact Option.noConfusion h

/-- Running any sequence of room events preserves the invariant. -/
theorem runSession_inv (events : List SessionEvent) :
    ∀ s s2 : SessionState, runSession s events = some s2 → SessionInv s → SessionInv s2 := by
  induction events with
  | nil =>
    intro s s2 h hinv
    have hss : s = s2 := by simpa [runSession] using h
    exact hss ▸ hinv
  | cons e rest ih =>
    intro s s2 h hinv
    simp only [runSession, List.foldlM_cons] at h
    cases hs : step s e with
    | none => rw [hs] at h; simp at h
    | some s1 =>
      rw [hs] at h
      have h2 : runSession s1 rest = some s2 := by simpa [runSession] using h
      exact ih s1 s2 h2 (step_preserves_inv s s1 e hs hinv)

/-- Unrolling the `forEach` of `toggleMute`: the processed publications
accumulate in order, each flipped. -/
theorem foldl_toggleMuteStep (pubs : List AudioTrackPublication) :
    ∀ (label : String) (acc : List AudioTrackPublication),
      (pubs.foldl toggleMuteStep (label, acc)).2 = acc ++ pubs.map toggledPublication := by
  induction pubs with
  | nil => intro label acc; simp
  | cons p ps ih =>
    intro label acc
    simp only [List.foldl_cons, List.map_cons]
    by_cases hp : p.isTrackEnabled = true
    · rw [show toggleMuteStep (label, acc) p
          = ("Unmute", acc ++ [{ track := { isEnabled := false } }]) from by
        simp [toggleMuteStep, hp]]
      rw [ih]
      simp [toggledPublication, hp]
    · rw [show toggleMuteStep (label, acc) p
          = ("Mute", acc ++ [{ track := { isEnabled := true } }]) from by
        simp [toggleMuteStep, hp]]
      rw [ih]
      simp [toggledPublication, hp]

/-- `toggleMute` flips every publication pointwise. -/
theorem toggleMute_snd (label : String) (pubs : List AudioTrackPublication) :
    (toggleMute label pubs).2 = pubs.map toggledPublication := by
  simpa using foldl_toggleMuteStep pubs label []

/-- Flipping a publication twice restores it. -/
theorem toggledPublication_involutive (p : AudioTrackPublication) :
    toggledPublication (toggledPublication p) = p := by
  cases p with
  | mk t =>
    cases t with
    | mk e => cases e <;> rfl

/-!  Claim theorems. -/

/-- C1: Participant media container lifecycle.  Starting from the state
`createChat` sets up (a container for the local participant and for each
remote already in the room) and running any valid sequence of room
events, a DOM container exists exactly for each currently connected
participant while the room is active (one per sid, local first), and
after the room's `disconnected` event has been handled no participant
container remains: the handler removed the local participant's container
and every remaining remote one. -/
theorem participantContainerLifecycle (localP : Participant)
    (localTracks : List TrackPublication) (localVideoTracks : List LocalTrackPublication)
    (initialRemotes : List (Participant × List TrackPublication)) (isMobileResult : Bool)
    (events : List SessionEvent) (s0 s : SessionState)
    (hnodup : (localP.sid :: initialRemotes.map (fun pr => pr.1.sid)).Nodup)
    (hinit : createChatSetup localP localTracks localVideoTracks initialRemotes isMobileResult
        = some s0)
    (hrun : runSession s0 events = some s) :
    (s.active = true → s.view.containers.map (fun c => c.id) = allSids s)
    ∧ (s.active = false → s.view.containers = []) := by
  have hinv := runSession_inv events s0 s hrun
    (createChatSetup_inv localP localTracks localVideoTracks initialRemotes isMobileResult
      s0 hnodup hinit)
  exact ⟨fun ha => (hinv.1 ha).1, hinv.2⟩

/-- Witness for C1: a concrete session (local `pAlice`, remote `pBob`)
and trace (leave, rejoin, room disconnect) ending with no containers. -/
theorem participantContainerLifecycle_witness :
    createChatSetup pAlice [] [{ track := tVideo }] [(pBob, [])] true = some exampleInitState
    ∧ runSession exampleInitState exampleEvents = some exampleFinalState
    ∧ exampleFinalState.view.containers = [] := by
  refine ⟨by decide, by decide, ?_⟩
  exact (participantContainerLifecycle pAlice [] [{ track := tVideo }] [(pBob, [])] true
    exampleEvents exampleInitState exampleFinalState (by decide) (by decide) (by decide)).2
    (by decide)

/-- C2: `setupParticipantContainer` appends exactly one container to
`#participants`, keyed by the participant's sid (with the identity as
`data-identity`), holding exactly two children: one audio element and
one video element. -/
theorem containerPerParticipant (p lp : Participant) (cn : String) (v : ViewState) :
    (setupParticipantContainer p lp cn v).containers
        = v.containers ++ [mediaContainer p lp cn]
    ∧ (mediaContainer p lp cn).id = p.sid
    ∧ (mediaContainer p lp cn).dataIdentity = p.identity
    ∧ (mediaContainer p lp cn).children.map (fun m => m.kind)
        = [MediaKind.audio, MediaKind.video]
    ∧ (mediaContainer p lp cn).children.length = 2 :=
  ⟨rfl, rfl, rfl, rfl, rfl⟩

/-- C3: the promise set up by `createChat` is rejected exactly when the
room's `disconnected` event fires with an error — and then with that
error; without an error it is resolved; and in both cases the settled
state already reflects the teardown: handlers cleared, local video track
stopped, all participant containers removed. -/
theorem promiseSettlement (error : Option String) (s s2 : SessionState)
    (hids : s.view.containers.map (fun c => c.id) = allSids s)
    (hrun : roomDisconnectedHandler error s = some s2) :
    (∀ e, s2.settled = some (Settlement.rejected e) ↔ error = some e)
    ∧ (s2.settled = some Settlement.resolved ↔ error = none)
    ∧ s2.window.onbeforeunload = none
    ∧ s2.window.onpagehide = none
    ∧ s2.window.onvisibilitychange = none
    ∧ s2.localVideoTrackStopped = true
    ∧ s2.view.containers = [] := by
  obtain ⟨s3, hh, hemp, hwin, hstop, hset, _⟩ := roomDisconnectedHandler_spec error s hids
  rw [hh] at hrun
  injection hrun with h2
  subst h2
  refine ⟨?_, ?_, ?_, ?_, ?_, hstop, hemp⟩
  · intro e
    rw [hset]
    cases error <;> simp [settleOutcome]
  · rw [hset]
    cases error <;> simp [settleOutcome]
  · rw [hwin]; rfl
  · rw [hwin]; rfl
  · rw [hwin]; rfl

/-- Witness for C3: the handler fires with a TwilioError on the example
session and rejects with exactly that error. -/
theorem promiseSettlement_witness :
    exampleInitState.view.containers.map (fun c => c.id) = allSids exampleInitState
    ∧ roomDisconnectedHandler (some "SignalingConnectionError") exampleInitState
        = some exampleRejectedState
    ∧ exampleRejectedState.settled = some (Settlement.rejected "SignalingConnectionError") := by
  refine ⟨by decide, by decide, ?_⟩
  exact ((promiseSettlement (some "SignalingConnectionError") exampleInitState
    exampleRejectedState (by decide) (by decide)).1 "SignalingConnectionError").mpr rfl

/-- C4: the expression
`Array.from(room.localParticipant.videoTracks.values())[0].track` is
well-defined precisely under the precondition that at least one local
video track is published: on a nonempty list the access yields a track,
on the empty list it has no defined result, and `createChat` performs it
with no guard, so its setup fails on a room state with no published
local video track. -/
theorem unguardedLocalVideoTrackAccess :
    (∀ videoTracks : List LocalTrackPublication,
      videoTracks ≠ [] → (firstLocalVideoTrack videoTracks).isSome = true)
    ∧ firstLocalVideoTrack [] = none
    ∧ (∀ (localP : Participant) (localTracks : List TrackPublication)
        (initialRemotes : List (Participant × List TrackPublication)) (isMobileResult : Bool),
        createChatSetup localP localTracks [] initialRemotes isMobileResult = none) := by
  refine ⟨?_, rfl, ?_⟩
  · intro vts hne
    cases vts with
    | nil => exact absurd rfl hne
    | cons a rest => rfl
  · intro localP lt irs mob
    rfl

/-- Witness for C4: one published video track satisfies the
precondition and the access succeeds. -/
theorem unguardedLocalVideoTrackAccess_witness :
    ([{ track := tVideo }] : List LocalTrackPublication) ≠ []
    ∧ (firstLocalVideoTrack [{ track := tVideo }]).isSome = true := by
  refine ⟨by decide, ?_⟩
  exact unguardedLocalVideoTrackAccess.1 [{ track := tVideo }] (by decide)

/-- C5: after the room's `disconnected` event has been handled,
`window.onbeforeunload`, `window.onpagehide` and
`document.onvisibilitychange` are all null whatever `isMobile()`
returned at setup time: the cleanup branch tests the `isMobile` function
reference itself, which is truthy on every platform, so the mobile-only
handlers are cleared unconditionally. -/
theorem mobileHandlersClearedUnconditionally (isMobileResult : Bool) (error : Option String)
    (w : WindowState) (s s2 : SessionState)
    (hw : s.window = promiseSetup isMobileResult w)
    (hrun : roomDisconnectedHandler error s = some s2) :
    s2.window.onbeforeunload = none
    ∧ s2.window.onpagehide = none
    ∧ s2.window.onvisibilitychange = none
    ∧ truthy isMobileRef = true := by
  have hwin := roomDisconnectedHandler_window error s s2 hrun
  rw [hwin]
  exact ⟨rfl, rfl, rfl, rfl⟩

/-- Witness for C5: the handlers are null after a clean disconnect of
the example (mobile) session. -/
theorem mobileHandlersClearedUnconditionally_witness :
    exampleInitState.window = promiseSetup true nullWindow
    ∧ roomDisconnectedHandler none exampleInitState = some exampleResolvedState
    ∧ exampleResolvedState.window.onpagehide = none := by
  refine ⟨by decide, by decide, ?_⟩
  exact (mobileHandlersClearedUnconditionally true none nullWindow exampleInitState
    exampleResolvedState (by decide) (by decide)).2.1

/-- C6: one call to `toggleMute` disables every audio track publication
whose track is enabled and enables every one whose track is disabled
(pointwise flip, in order), so applying `toggleMute` twice restores the
original enabled state of every local audio track. -/
theorem toggleMuteCorrect (label relabel : String) (pubs : List AudioTrackPublication) :
    (toggleMute label pubs).2 = pubs.map toggledPublication
    ∧ (∀ p : AudioTrackPublication, p.isTrackEnabled = true →
        (toggledPublication p).isTrackEnabled = false)
    ∧ (∀ p : AudioTrackPublication, p.isTrackEnabled = false →
        (toggledPublication p).isTrackEnabled = true)
    ∧ (toggleMute relabel (toggleMute label pubs).2).2 = pubs := by
  refine ⟨toggleMute_snd label pubs, ?_, ?_, ?_⟩
  · intro p hp
    have hp2 : p.track.isEnabled = true := hp
    simp [toggledPublication, AudioTrackPublication.isTrackEnabled, hp2]
  · intro p hp
    have hp2 : p.track.isEnabled = false := hp
    simp [toggledPublication, AudioTrackPublication.isTrackEnabled, hp2]
  · rw [toggleMute_snd, toggleMute_snd, List.map_map]
    have hcomp : toggledPublication ∘ toggledPublication = id :=
      funext (fun p => toggledPublication_involutive p)
    rw [hcomp, List.map_id]

/-- Witness for C6: an enabled publication is disabled by the flip. -/
theorem toggleMuteCorrect_witness :
    AudioTrackPublication.isTrackEnabled { track := { isEnabled := true } } = true
    ∧ (toggledPublication { track := { isEnabled := true } }).isTrackEnabled = false := by
  refine ⟨by decide, ?_⟩
  exact (toggleMuteCorrect "Mute" "Mute" []).2.1 { track := { isEnabled := true } } (by decide)

/-- C7: the status message is an enum with exactly the states `waiting`
and `disconnect`; `messageState` starts as `waiting` (and is still
`waiting` after `createChat`'s setup); every transition — `setMessage`
as called from the `disconnect` method and from
`participantDisconnected` — sets it to `disconnect`; and the displayed
message is always the text the `messages` dictionary maps the current
state to. -/
theorem messageStateEnum :
    (∀ ms : MessageState, ms = MessageState.waiting ∨ ms = MessageState.disconnect)
    ∧ initialMessageState = MessageState.waiting
    ∧ (∀ (localP : Participant) (localTracks : List TrackPublication)
        (localVideoTracks : List LocalTrackPublication)
        (initialRemotes : List (Participant × List TrackPublication))
        (isMobileResult : Bool) (s0 : SessionState),
        createChatSetup localP localTracks localVideoTracks initialRemotes isMobileResult
            = some s0 → s0.view.messageState = MessageState.waiting)
    ∧ (∀ s : SessionState, (disconnect s).view.messageState = MessageState.disconnect)
    ∧ (∀ (p : Participant) (v v2 : ViewState),
        participantDisconnected p v = some v2 → v2.messageState = MessageState.disconnect)
    ∧ messages MessageState.waiting = "Waiting for participant..."
    ∧ messages MessageState.disconnect = "Participant left the call."
    ∧ (∀ v : ViewState, message v = messages v.messageState) := by
  refine ⟨?_, rfl, ?_, fun s => rfl, ?_, rfl, rfl, fun v => rfl⟩
  · intro ms
    cases ms with
    | waiting => exact Or.inl rfl
    | disconnect => exact Or.inr rfl
  · intro localP lt lvt irs mob s0 h
    exact (createChatSetup_spec localP lt lvt irs mob s0 h).2.1
  · intro p v v2 h
    unfold participantDisconnected at h
    by_cases hc : (v.containers.any fun c => c.id == p.sid) = true
    · rw [if_pos hc] at h
      injection h with h2
      rw [← h2]
      rfl
    · rw [if_neg hc] at h
      exact Option.noConfusion h

/-- Witness for C7: the example session starts waiting; `pBob` leaving
flips the state to `disconnect`. -/
theorem messageStateEnum_witness :
    createChatSetup pAlice [] [{ track := tVideo }] [(pBob, [])] true = some exampleInitState
    ∧ exampleInitState.view.messageState = MessageState.waiting
    ∧ participantDisconnected pBob exampleInitState.view = some exampleViewAfterLeave
    ∧ exampleViewAfterLeave.messageState = MessageState.disconnect := by
  refine ⟨by decide, ?_, by decide, ?_⟩
  · exact messageStateEnum.2.2.1 pAlice [] [{ track := tVideo }] [(pBob, [])] true
      exampleInitState (by decide)
  · exact messageStateEnum.2.2.2.2.1 pBob exampleInitState.view exampleViewAfterLeave (by decide)

/-- C8: once `createChat`'s promise setup has run, firing the window
`beforeunload` event invokes `room.disconnect()`; when `isMobile()`
returned true, firing `pagehide` does too; and the Disconnect button's
method sets the message state to `disconnect` and invokes
`room.disconnect()`. -/
theorem teardownTriggers (isMobileResult : Bool) (w : WindowState) (s : SessionState)
    (hw : s.window = promiseSetup isMobileResult w) :
    (fireBeforeunload s).disconnectCalls = s.disconnectCalls + 1
    ∧ (isMobileResult = true → (firePagehide s).disconnectCalls = s.disconnectCalls + 1)
    ∧ (∀ s1 : SessionState,
        (disconnect s1).view.messageState = MessageState.disconnect
        ∧ (disconnect s1).disconnectCalls = s1.disconnectCalls + 1) := by
  refine ⟨?_, ?_, fun s1 => ⟨rfl, rfl⟩⟩
  · unfold fireBeforeunload
    rw [hw]
    rfl
  · intro hm
    subst hm
    unfold firePagehide
    rw [hw]
    rfl

/-- Witness for C8: both unload events of the example (mobile) session
call `room.disconnect()`. -/
theorem teardownTriggers_witness :
    exampleInitState.window = promiseSetup true nullWindow
    ∧ (fireBeforeunload exampleInitState).disconnectCalls
        = exampleInitState.disconnectCalls + 1
    ∧ (firePagehide exampleInitState).disconnectCalls
        = exampleInitState.disconnectCalls + 1 := by
  have h := teardownTriggers true nullWindow exampleInitState (by decide)
  exact ⟨by decide, h.1, h.2.1 rfl⟩

/-- C9: in every container built by `setupParticipantContainer`, both
media elements autoplay and start at opacity 0; the video element is
always muted; and the audio element is muted exactly when the
participant is the room's local participant. -/
theorem mediaElementProperties (p lp : Participant) (cn : String) :
    ∀ m ∈ (mediaContainer p lp cn).children,
      m.autoplay = true
      ∧ m.opacity = "0"
      ∧ (m.kind = MediaKind.video → m.muted = true)
      ∧ (m.kind = MediaKind.audio → (m.muted = true ↔ p = lp)) := by
  intro m hm
  simp only [mediaContainer, List.mem_cons, List.mem_singleton, List.not_mem_nil,
    or_false] at hm
  rcases hm with h | h
  · subst h
    refine ⟨rfl, rfl, ?_, fun _ => beq_iff_eq⟩
    intro hk
    exact MediaKind.noConfusion hk
  · subst h
    refine ⟨rfl, rfl, fun _ => rfl, ?_⟩
    intro hk
    exact MediaKind.noConfusion hk

/-- Witness for C9: the audio element of the local participant's own
container is muted. -/
theorem mediaElementProperties_witness :
    exampleAudioElement ∈ (mediaContainer pAlice pAlice "local").children
    ∧ (exampleAudioElement.muted = true ↔ pAlice = pAlice) := by
  refine ⟨by decide, ?_⟩
  exact (mediaElementProperties pAlice pAlice "local" exampleAudioElement (by decide)).2.2.2 rfl

/-- C10: the route table contains exactly two entries: path "/" named
home rendering the Home component, and path "/video" named video
rendering the Video component. -/
theorem routerTwoPages :
    routes.length = 2
    ∧ routes.map (fun r => r.path) = ["/", "/video"]
    ∧ routes.map (fun r => r.name) = ["home", "video"]
    ∧ routes.map (fun r => r.component) = [PageComponent.Home, PageComponent.Video] :=
  ⟨rfl, rfl, rfl, rfl⟩

end TwilioChat
